import Mathlib

/-!
# Endpoint-scaling configuration (`EclEpsConfig`)

A shallow embedding of `opm/material/fluidmatrixinteractions/EclEpsConfig.hpp`.

* The class `EclEpsConfig` is a record of its eight `bool` data members.
* The member function `initFromState` mutates the object and may throw; it is
  embedded as a function from the object before the call to the object after
  the call together with a flag telling whether the call threw.  The object
  after the call is recorded also when the call throws, because the members are
  assigned before the final check is made.
* `EclipseState` belongs to the input library; only the five queries that
  `initFromState` makes of it are kept, as fields of a record.
-/

namespace Opm

/-- Which fluids are involved in a two-phase material law (`enum EclTwoPhaseSystemType`). -/
inductive EclTwoPhaseSystemType where
  | EclGasOilSystem
  | EclOilWaterSystem
  | EclGasWaterSystem
  deriving DecidableEq, Repr

/-- The enumeration `JFunc::Flag` of the input library, as `initFromState` compares it. -/
inductive JFuncFlag where
  | BOTH
  | WATER
  | GAS
  deriving DecidableEq, Repr

/-- The queries `initFromState` makes of its `eclState` argument.

* `endscale`: `eclState.runspec().endpointScaling()` converted to `bool`;
* `threepoint`: `endscale.threepoint()`;
* `useJFunc`: `eclState.getTableManager().useJFunc()`;
* `jfuncFlag`: `eclState.getTableManager().getJFunc().flag()`, read only when `useJFunc` holds;
* `has_double`: `eclState.fieldProps().has_double(name)`. -/
structure EclipseState where
  endscale : Bool
  threepoint : Bool
  useJFunc : Bool
  jfuncFlag : JFuncFlag
  has_double : String → Bool

/-- The data members of `class EclEpsConfig`, in the order of their declaration. -/
structure EclEpsConfig where
  enableSatScaling_ : Bool
  enableThreePointKrSatScaling_ : Bool
  enablePcScaling_ : Bool
  enableLeverettScaling_ : Bool
  enableKrwScaling_ : Bool
  enableKrnScaling_ : Bool
  enableThreePointKrwScaling_ : Bool
  enableThreePointKrnScaling_ : Bool
  deriving DecidableEq, Repr

namespace EclEpsConfig

/-- The default constructor `EclEpsConfig::EclEpsConfig()`: the two three-point members
get their default member initialiser `{false}`, the constructor body assigns `false`
to the other six.  (Named `construct` because the class name is taken by the type.) -/
def construct : Opm.EclEpsConfig :=
  { enableSatScaling_ := false
    enablePcScaling_ := false
    enableLeverettScaling_ := false
    enableKrwScaling_ := false
    enableKrnScaling_ := false
    enableThreePointKrSatScaling_ := false
    enableThreePointKrwScaling_ := false
    enableThreePointKrnScaling_ := false }

@[simp]
def setEnableSatScaling (self : Opm.EclEpsConfig) (yesno : Bool) : Opm.EclEpsConfig :=
  { self with enableSatScaling_ := yesno }

@[simp]
def enableSatScaling (self : Opm.EclEpsConfig) : Bool :=
  self.enableSatScaling_

@[simp]
def setEnableThreePointKrSatScaling (self : Opm.EclEpsConfig) (yesno : Bool) : Opm.EclEpsConfig :=
  { self with enableThreePointKrSatScaling_ := yesno }

@[simp]
def enableThreePointKrSatScaling (self : Opm.EclEpsConfig) : Bool :=
  self.enableThreePointKrSatScaling_

@[simp]
def setEnableKrwScaling (self : Opm.EclEpsConfig) (yesno : Bool) : Opm.EclEpsConfig :=
  { self with enableKrwScaling_ := yesno }

@[simp]
def enableKrwScaling (self : Opm.EclEpsConfig) : Bool :=
  self.enableKrwScaling_

@[simp]
def setEnableThreePointKrwScaling (self : Opm.EclEpsConfig) (enable : Bool) : Opm.EclEpsConfig :=
  { self with enableThreePointKrwScaling_ := enable }

@[simp]
def enableThreePointKrwScaling (self : Opm.EclEpsConfig) : Bool :=
  self.enableThreePointKrwScaling_

@[simp]
def setEnableThreePointKrnScaling (self : Opm.EclEpsConfig) (enable : Bool) : Opm.EclEpsConfig :=
  { self with enableThreePointKrnScaling_ := enable }

@[simp]
def enableThreePointKrnScaling (self : Opm.EclEpsConfig) : Bool :=
  self.enableThreePointKrnScaling_

@[simp]
def setEnableKrnScaling (self : Opm.EclEpsConfig) (yesno : Bool) : Opm.EclEpsConfig :=
  { self with enableKrnScaling_ := yesno }

@[simp]
def enableKrnScaling (self : Opm.EclEpsConfig) : Bool :=
  self.enableKrnScaling_

@[simp]
def setEnablePcScaling (self : Opm.EclEpsConfig) (yesno : Bool) : Opm.EclEpsConfig :=
  { self with enablePcScaling_ := yesno }

@[simp]
def enablePcScaling (self : Opm.EclEpsConfig) : Bool :=
  self.enablePcScaling_

@[simp]
def setEnableLeverettScaling (self : Opm.EclEpsConfig) (yesno : Bool) : Opm.EclEpsConfig :=
  { self with enableLeverettScaling_ := yesno }

@[simp]
def enableLeverettScaling (self : Opm.EclEpsConfig) : Bool :=
  self.enableLeverettScaling_

end EclEpsConfig

/-- What a call of `initFromState` leaves behind: the object after the call
(`self`) and whether the call ended in `throw std::runtime_error` (`threw`). -/
structure InitResult where
  self : EclEpsConfig
  threw : Bool
  deriving DecidableEq, Repr

open EclTwoPhaseSystemType in
/-- The member function `EclEpsConfig::initFromState(eclState, twoPhaseSystemType, prefix, suffix)`,
statement by statement; `pre` and `suf` are the arguments `prefix` and `suffix`. -/
def EclEpsConfig.initFromState (self : EclEpsConfig) (eclState : EclipseState)
    (twoPhaseSystemType : EclTwoPhaseSystemType) (pre suf : String) : InitResult :=
  let endscale := eclState.endscale
  -- find out if endpoint scaling is used in the first place
  if !endscale then
    let self := { self with enableSatScaling_ := false }
    let self := { self with enableThreePointKrSatScaling_ := false }
    let self := { self with enablePcScaling_ := false }
    let self := { self with enableLeverettScaling_ := false }
    let self := { self with enableKrwScaling_ := false }
    let self := { self with enableKrnScaling_ := false }
    { self := self, threw := false }
  else
    -- endpoint scaling is used, i.e., at least saturation scaling needs to be enabled
    let self := { self with enableSatScaling_ := true }
    let self := { self with enableThreePointKrSatScaling_ := eclState.threepoint }
    let self :=
      if eclState.useJFunc then
        let flag := eclState.jfuncFlag
        { self with enableLeverettScaling_ :=
            (flag == JFuncFlag.BOTH)
              || ((twoPhaseSystemType == EclOilWaterSystem) && (flag == JFuncFlag.WATER))
              || ((twoPhaseSystemType == EclGasOilSystem) && (flag == JFuncFlag.GAS)) }
      else self
    let hasKR := fun (scaling : String) => eclState.has_double (pre ++ "KR" ++ scaling ++ suf)
    let hasPC := fun (scaling : String) => eclState.has_double (pre ++ "PC" ++ scaling)
    let self :=
      if twoPhaseSystemType == EclOilWaterSystem then
        let self := self.setEnableThreePointKrwScaling (hasKR "WR")
        let self := self.setEnableThreePointKrnScaling (hasKR "ORW")
        let self := { self with enableKrnScaling_ := hasKR "O" || self.enableThreePointKrnScaling }
        let self := { self with enableKrwScaling_ := hasKR "W" || self.enableThreePointKrwScaling }
        let self := { self with enablePcScaling_ := hasPC "W" || eclState.has_double "SWATINIT" }
        self
      else if twoPhaseSystemType == EclGasOilSystem then
        let self := self.setEnableThreePointKrwScaling (hasKR "ORG")
        let self := self.setEnableThreePointKrnScaling (hasKR "GR")
        let self := { self with enableKrnScaling_ := hasKR "G" || self.enableThreePointKrnScaling }
        let self := { self with enableKrwScaling_ := hasKR "O" || self.enableThreePointKrwScaling }
        let self := { self with enablePcScaling_ := hasPC "G" }
        self
      else
        -- twoPhaseSystemType == EclGasWaterSystem: nothing is assigned
        self
    if self.enablePcScaling_ && self.enableLeverettScaling_ then
      { self := self, threw := true }
    else
      { self := self, threw := false }

/-! ## Decks used as concrete inputs -/

/-- A deck without endpoint scaling that nevertheless asks for three-point scaling,
has a J-function for both phases and has every field. -/
def deckNoEndscale : EclipseState :=
  { endscale := false, threepoint := true, useJFunc := true, jfuncFlag := JFuncFlag.BOTH,
    has_double := fun _ => true }

/-- A deck with endpoint scaling, no J-function and no field at all. -/
def deckPlain : EclipseState :=
  { endscale := true, threepoint := false, useJFunc := false, jfuncFlag := JFuncFlag.BOTH,
    has_double := fun _ => false }

/-- An oil-water deck with endpoint scaling, the field `PCW` and a J-function for the
water phase: the two capillary-pressure scalings are both asked for. -/
def deckConflict : EclipseState :=
  { endscale := true, threepoint := false, useJFunc := true, jfuncFlag := JFuncFlag.WATER,
    has_double := fun name => name == "PCW" }

/-- The deck of the example: endpoint scaling, no three-point request, no J-function
(`jfuncFlag` is then never read) and `KRW` as the only field. -/
def deckKrwOnly : EclipseState :=
  { endscale := true, threepoint := false, useJFunc := false, jfuncFlag := JFuncFlag.BOTH,
    has_double := fun name => name == "KRW" }

/-- A gas-oil deck with endpoint scaling and `PCG` as the only field, no J-function. -/
def deckPcgOnly : EclipseState :=
  { endscale := true, threepoint := false, useJFunc := false, jfuncFlag := JFuncFlag.BOTH,
    has_double := fun name => name == "PCG" }

/-- The deck `deckPcgOnly` with the field `SWATINIT` added. -/
def deckPcgSwatinit : EclipseState :=
  { endscale := true, threepoint := false, useJFunc := false, jfuncFlag := JFuncFlag.BOTH,
    has_double := fun name => name == "PCG" || name == "SWATINIT" }

/-- A deck with endpoint scaling, a J-function for the gas phase and no field. -/
def deckJGas : EclipseState :=
  { endscale := true, threepoint := false, useJFunc := true, jfuncFlag := JFuncFlag.GAS,
    has_double := fun _ => false }

/-- A deck with endpoint scaling, a J-function for both phases and no field. -/
def deckJBoth : EclipseState :=
  { endscale := true, threepoint := false, useJFunc := true, jfuncFlag := JFuncFlag.BOTH,
    has_double := fun _ => false }

/-- An oil-water deck without endpoint scaling whose only field is `SWATINIT`. -/
def deckSwatinitNoEndscale : EclipseState :=
  { endscale := false, threepoint := false, useJFunc := false, jfuncFlag := JFuncFlag.BOTH,
    has_double := fun name => name == "SWATINIT" }

/-- An oil-water deck with endpoint scaling whose only field is `SWATINIT`. -/
def deckSwatinit : EclipseState :=
  { endscale := true, threepoint := false, useJFunc := false, jfuncFlag := JFuncFlag.BOTH,
    has_double := fun name => name == "SWATINIT" }

/-- An oil-water deck with endpoint scaling whose only field is `KRWR`. -/
def deckKrwrOnly : EclipseState :=
  { endscale := true, threepoint := false, useJFunc := false, jfuncFlag := JFuncFlag.BOTH,
    has_double := fun name => name == "KRWR" }

/-- An object on which `setEnableKrwScaling(true)` was called after construction. -/
def configKrwSet : EclEpsConfig :=
  EclEpsConfig.construct.setEnableKrwScaling true

/-- An object on which every setter was called with `true` after construction. -/
def configAllSet : EclEpsConfig :=
  (((((((EclEpsConfig.construct.setEnableSatScaling true).setEnableThreePointKrSatScaling
    true).setEnablePcScaling true).setEnableLeverettScaling true).setEnableKrwScaling
    true).setEnableKrnScaling true).setEnableThreePointKrwScaling
    true).setEnableThreePointKrnScaling true

/-- An object on which `setEnableThreePointKrwScaling(true)` was called after construction. -/
def configThreePointKrwSet : EclEpsConfig :=
  EclEpsConfig.construct.setEnableThreePointKrwScaling true

/-- An object on which `setEnablePcScaling(true)` and `setEnableLeverettScaling(true)`
were called after construction. -/
def configPcLeverettSet : EclEpsConfig :=
  (EclEpsConfig.construct.setEnablePcScaling true).setEnableLeverettScaling true

/-- A deck with endpoint scaling, a three-point request, no J-function and every field. -/
def deckAllFields : EclipseState :=
  { endscale := true, threepoint := true, useJFunc := false, jfuncFlag := JFuncFlag.BOTH,
    has_double := fun _ => true }

/-- A deck with endpoint scaling, no J-function, and the two fields `PCW` and `KRWX`. -/
def deckPcwKrwX : EclipseState :=
  { endscale := true, threepoint := false, useJFunc := false, jfuncFlag := JFuncFlag.BOTH,
    has_double := fun name => name == "PCW" || name == "KRWX" }

end Opm

/-!
# Regularized Brooks-Corey parameters

A shallow embedding of
`dumux/new_material/fluidmatrixinteractions/2p/regularizedbrookscoreyparams.hh`.
-/

namespace Dumux

/-- A C++ `double` (IEEE 754 binary64), held as the exact rational number it stands
for. -/
abbrev Double : Type := ℚ

/-- The number of binary digits of `n` (`0` for `n = 0`), by repeated halving; `fuel`
bounds the number of halvings and `fuel = n` always suffices. -/
def binaryDigits : ℕ → ℕ → ℕ
  | 0, _ => 0
  | fuel + 1, n => if n = 0 then 0 else binaryDigits fuel (n / 2) + 1

/-- Rounding of the positive rational `num / den` to a 53-bit significand, to nearest
with ties to even, for a value in the normal range of binary64 and below `2 ^ 53`:
the pair `(m, e)` stands for `m / 2 ^ e`, with `2 ^ 52 ≤ m ≤ 2 ^ 53`. -/
def nearestDoubleSignificand (num den : ℕ) : ℕ × ℕ :=
  let e₀ := 53 + binaryDigits den den - binaryDigits num num
  let e := if den * 2 ^ 53 ≤ num * 2 ^ e₀ then e₀ - 1 else e₀
  let f := num * 2 ^ e / den
  let r := num * 2 ^ e % den
  let m := if den < 2 * r ∨ (2 * r = den ∧ f % 2 = 1) then f + 1 else f
  (m, e)

/-- The value of a C++ floating literal of type `double` written with the decimal
digits `digits`, the last `decimals` of them after the point (`0.05` is
`doubleLiteral 5 2`): the binary64 number nearest to `digits / 10 ^ decimals`. -/
def doubleLiteral (digits decimals : ℕ) : Double :=
  ((nearestDoubleSignificand digits (10 ^ decimals)).1 : ℚ)
    / 2 ^ (nearestDoubleSignificand digits (10 ^ decimals)).2

/-- The class template `RegularizedBrooksCoreyParams<ScalarT>`.  It declares no data
member of its own: an object is its base-class subobject.  The base class
`Dune::BrooksCoreyParams<ScalarT>` is declared in `brookscoreyparams.hh`, which is not
among the sources, and is therefore the type parameter `Base`. -/
structure RegularizedBrooksCoreyParams (Scalar : Type) (Base : Type) where
  toBrooksCoreyParams : Base

namespace RegularizedBrooksCoreyParams

/-- The default constructor `RegularizedBrooksCoreyParams() : BrooksCoreyParams()`;
`baseConstruct` is what the default constructor of the base class yields. -/
def construct {Scalar Base : Type} (baseConstruct : Base) :
    RegularizedBrooksCoreyParams Scalar Base :=
  { toBrooksCoreyParams := baseConstruct }

/-- The constructor `RegularizedBrooksCoreyParams(Scalar pe, Scalar alpha)
: BrooksCoreyParams(pe, alpha)`; `baseConstructPeAlpha` is the two-argument constructor
of the base class. -/
def constructPeAlpha {Scalar Base : Type} (baseConstructPeAlpha : Scalar → Scalar → Base)
    (pe alpha : Scalar) : RegularizedBrooksCoreyParams Scalar Base :=
  { toBrooksCoreyParams := baseConstructPeAlpha pe alpha }

/-- Threshold saturation below which the capillary pressure is regularized:
`Scalar pCLowSw() const { return 0.05; }`, for `ScalarT = double`.  The literal has
type `double`; it is converted to `Scalar` on return, which does nothing here. -/
def pCLowSw {Base : Type} (_self : RegularizedBrooksCoreyParams Double Base) : Double :=
  doubleLiteral 5 2

/-- Threshold saturation below which the relative permeability of the non-wetting
phase gets regularized: `Scalar krnLowSw() const { return 0.15; }`, for
`ScalarT = double`. -/
def krnLowSw {Base : Type} (_self : RegularizedBrooksCoreyParams Double Base) : Double :=
  doubleLiteral 15 2

/-- Threshold saturation above which the relative permeability of the wetting phase
gets regularized: `Scalar krwHighSw() const { return 0.85; }`, for
`ScalarT = double`. -/
def krwHighSw {Base : Type} (_self : RegularizedBrooksCoreyParams Double Base) : Double :=
  doubleLiteral 85 2

end RegularizedBrooksCoreyParams

end Dumux

namespace Opm

/-! ## Auxiliary lemmas -/

/-- The final check of `initFromState` leaves the object as it is and only decides
whether the call throws. -/
@[simp]
theorem InitResult.ite_throw (p : Prop) [Decidable p] (s : EclEpsConfig) :
    (if p then ({ self := s, threw := true } : InitResult) else { self := s, threw := false })
      = { self := s, threw := decide p } := by
  split <;> simp [*]

/-- The key looked up by `hasPC(scaling)`, with the two literals joined. -/
theorem hasPC_key (pre a : String) : pre ++ "PC" ++ a = pre ++ ("PC" ++ a) :=
  String.append_assoc pre "PC" a

/-- The key looked up by `hasKR(scaling)`, with the two literals joined. -/
theorem hasKR_key (pre a suf : String) : pre ++ "KR" ++ a ++ suf = pre ++ ("KR" ++ a) ++ suf := by
  rw [String.append_assoc pre "KR" a]

/-- No prefix makes the key of `hasPC("G")` the key `SWATINIT`: the latter has no `C`. -/
theorem hasPC_G_ne_SWATINIT (pre : String) : pre ++ "PC" ++ "G" ≠ "SWATINIT" := by
  intro h
  have hmem : 'C' ∈ (pre ++ "PC" ++ "G").toList := by simp
  rw [h] at hmem
  revert hmem
  decide

/-! ## Theorems -/

/-- C1: for every prior state of the object and every deck, system type, prefix and
suffix, a call of `initFromState` that does not throw leaves an object that does not
have `enablePcScaling` and `enableLeverettScaling` both true. -/
theorem initFromState_pc_leverett_exclusive (c : EclEpsConfig) (d : EclipseState)
    (sys : EclTwoPhaseSystemType) (pre suf : String)
    (h : (c.initFromState d sys pre suf).threw = false) :
    ¬ ((c.initFromState d sys pre suf).self.enablePcScaling = true
        ∧ (c.initFromState d sys pre suf).self.enableLeverettScaling = true) := by
  obtain ⟨e, t, u, f, has⟩ := d
  cases e <;> cases u <;> cases sys <;>
    simp [EclEpsConfig.initFromState] at h ⊢ <;> simp_all

/-- Witness of C1: a deck with endpoint scaling and nothing else, taken as an oil-water
system by a freshly constructed object, does not throw. -/
theorem initFromState_pc_leverett_exclusive_witness :
    (EclEpsConfig.construct.initFromState deckPlain
        EclTwoPhaseSystemType.EclOilWaterSystem "" "").threw = false
    ∧ ¬ ((EclEpsConfig.construct.initFromState deckPlain
            EclTwoPhaseSystemType.EclOilWaterSystem "" "").self.enablePcScaling = true
        ∧ (EclEpsConfig.construct.initFromState deckPlain
            EclTwoPhaseSystemType.EclOilWaterSystem "" "").self.enableLeverettScaling = true) :=
  ⟨by decide, initFromState_pc_leverett_exclusive EclEpsConfig.construct deckPlain
      EclTwoPhaseSystemType.EclOilWaterSystem "" "" (by decide)⟩

/-- C2: when the endpoint-scaling toggle of the deck is off, `initFromState` applied to
a freshly constructed object does not throw and leaves all eight flags false, whatever
the three-point request, the J-function, the fields present, the system type, the
prefix and the suffix are. -/
theorem initFromState_no_endscale_fresh (d : EclipseState) (sys : EclTwoPhaseSystemType)
    (pre suf : String) (h : d.endscale = false) :
    (EclEpsConfig.construct.initFromState d sys pre suf).threw = false
    ∧ (EclEpsConfig.construct.initFromState d sys pre suf).self.enableSatScaling = false
    ∧ (EclEpsConfig.construct.initFromState d sys pre suf).self.enableThreePointKrSatScaling = false
    ∧ (EclEpsConfig.construct.initFromState d sys pre suf).self.enablePcScaling = false
    ∧ (EclEpsConfig.construct.initFromState d sys pre suf).self.enableLeverettScaling = false
    ∧ (EclEpsConfig.construct.initFromState d sys pre suf).self.enableKrwScaling = false
    ∧ (EclEpsConfig.construct.initFromState d sys pre suf).self.enableKrnScaling = false
    ∧ (EclEpsConfig.construct.initFromState d sys pre suf).self.enableThreePointKrwScaling = false
    ∧ (EclEpsConfig.construct.initFromState d sys pre suf).self.enableThreePointKrnScaling = false := by
  simp [EclEpsConfig.initFromState, EclEpsConfig.construct, h]

/-- Witness of C2: the deck `deckNoEndscale` (three-point request, J-function and every
field present, but no endpoint scaling) with a non-empty prefix and suffix. -/
theorem initFromState_no_endscale_fresh_witness :
    deckNoEndscale.endscale = false
    ∧ ((EclEpsConfig.construct.initFromState deckNoEndscale
          EclTwoPhaseSystemType.EclOilWaterSystem "I" "X").threw = false
      ∧ (EclEpsConfig.construct.initFromState deckNoEndscale
          EclTwoPhaseSystemType.EclOilWaterSystem "I" "X").self.enableSatScaling = false
      ∧ (EclEpsConfig.construct.initFromState deckNoEndscale
          EclTwoPhaseSystemType.EclOilWaterSystem "I" "X").self.enableThreePointKrSatScaling = false
      ∧ (EclEpsConfig.construct.initFromState deckNoEndscale
          EclTwoPhaseSystemType.EclOilWaterSystem "I" "X").self.enablePcScaling = false
      ∧ (EclEpsConfig.construct.initFromState deckNoEndscale
          EclTwoPhaseSystemType.EclOilWaterSystem "I" "X").self.enableLeverettScaling = false
      ∧ (EclEpsConfig.construct.initFromState deckNoEndscale
          EclTwoPhaseSystemType.EclOilWaterSystem "I" "X").self.enableKrwScaling = false
      ∧ (EclEpsConfig.construct.initFromState deckNoEndscale
          EclTwoPhaseSystemType.EclOilWaterSystem "I" "X").self.enableKrnScaling = false
      ∧ (EclEpsConfig.construct.initFromState deckNoEndscale
          EclTwoPhaseSystemType.EclOilWaterSystem "I" "X").self.enableThreePointKrwScaling = false
      ∧ (EclEpsConfig.construct.initFromState deckNoEndscale
          EclTwoPhaseSystemType.EclOilWaterSystem "I" "X").self.enableThreePointKrnScaling = false) :=
  ⟨rfl, initFromState_no_endscale_fresh deckNoEndscale
    EclTwoPhaseSystemType.EclOilWaterSystem "I" "X" rfl⟩

/-- C3: starting from a freshly constructed object, `initFromState` throws if and only
if the deck has endpoint scaling and either (oil-water system, the field
`prefix+"PCW"` or the field `"SWATINIT"` is present, and the deck has a J-function
whose flag is `BOTH` or `WATER`) or (gas-oil system, the field `prefix+"PCG"` is
present, and the deck has a J-function whose flag is `BOTH` or `GAS`).  In particular
it does not throw when endpoint scaling is off, when the deck has no J-function, or when
the system is gas-water. -/
theorem initFromState_fresh_throws_iff (d : EclipseState) (sys : EclTwoPhaseSystemType)
    (pre suf : String) :
    ((EclEpsConfig.construct.initFromState d sys pre suf).threw = true ↔
      d.endscale = true ∧
        ((sys = EclTwoPhaseSystemType.EclOilWaterSystem
            ∧ (d.has_double (pre ++ "PCW") = true ∨ d.has_double "SWATINIT" = true)
            ∧ d.useJFunc = true
            ∧ (d.jfuncFlag = JFuncFlag.BOTH ∨ d.jfuncFlag = JFuncFlag.WATER))
         ∨ (sys = EclTwoPhaseSystemType.EclGasOilSystem
            ∧ d.has_double (pre ++ "PCG") = true
            ∧ d.useJFunc = true
            ∧ (d.jfuncFlag = JFuncFlag.BOTH ∨ d.jfuncFlag = JFuncFlag.GAS))))
    ∧ (d.endscale = false → (EclEpsConfig.construct.initFromState d sys pre suf).threw = false)
    ∧ (d.useJFunc = false → (EclEpsConfig.construct.initFromState d sys pre suf).threw = false)
    ∧ (sys = EclTwoPhaseSystemType.EclGasWaterSystem →
        (EclEpsConfig.construct.initFromState d sys pre suf).threw = false) := by
  have hW : pre ++ "PC" ++ "W" = pre ++ "PCW" := by rw [String.append_assoc]; rfl
  have hG : pre ++ "PC" ++ "G" = pre ++ "PCG" := by rw [String.append_assoc]; rfl
  obtain ⟨e, t, u, f, has⟩ := d
  cases e <;> cases u <;> cases sys <;> cases f <;>
    simp [EclEpsConfig.initFromState, EclEpsConfig.construct, hW, hG]

/-- Witness of C3: on `deckConflict`, taken as an oil-water system, the call throws. -/
theorem initFromState_fresh_throws_iff_witness :
    (EclEpsConfig.construct.initFromState deckConflict
        EclTwoPhaseSystemType.EclOilWaterSystem "" "").threw = true :=
  (initFromState_fresh_throws_iff deckConflict
      EclTwoPhaseSystemType.EclOilWaterSystem "" "").1.mpr
    ⟨rfl, Or.inl ⟨rfl, Or.inl (by decide), rfl, Or.inr rfl⟩⟩

/-- C4: for an oil-water system, a deck with endpoint scaling and a freshly constructed
object, a call that does not throw leaves
`enableThreePointKrwScaling = has(prefix+"KRWR"+suffix)`,
`enableThreePointKrnScaling = has(prefix+"KRORW"+suffix)`,
`enableKrnScaling = has(prefix+"KRO"+suffix) or has(prefix+"KRORW"+suffix)`,
`enableKrwScaling = has(prefix+"KRW"+suffix) or has(prefix+"KRWR"+suffix)` and
`enablePcScaling = has(prefix+"PCW") or has("SWATINIT")`.  Example: with empty prefix
and suffix, no three-point request, no J-function and only the field `KRW`, the call
does not throw and leaves `enableSatScaling` and `enableKrwScaling` true and every
other flag false. -/
theorem initFromState_oilwater_flags :
    (∀ (d : EclipseState) (pre suf : String), d.endscale = true →
      (EclEpsConfig.construct.initFromState d
          EclTwoPhaseSystemType.EclOilWaterSystem pre suf).threw = false →
      (EclEpsConfig.construct.initFromState d
          EclTwoPhaseSystemType.EclOilWaterSystem pre suf).self.enableThreePointKrwScaling
        = d.has_double (pre ++ "KRWR" ++ suf)
      ∧ (EclEpsConfig.construct.initFromState d
          EclTwoPhaseSystemType.EclOilWaterSystem pre suf).self.enableThreePointKrnScaling
        = d.has_double (pre ++ "KRORW" ++ suf)
      ∧ (EclEpsConfig.construct.initFromState d
          EclTwoPhaseSystemType.EclOilWaterSystem pre suf).self.enableKrnScaling
        = (d.has_double (pre ++ "KRO" ++ suf) || d.has_double (pre ++ "KRORW" ++ suf))
      ∧ (EclEpsConfig.construct.initFromState d
          EclTwoPhaseSystemType.EclOilWaterSystem pre suf).self.enableKrwScaling
        = (d.has_double (pre ++ "KRW" ++ suf) || d.has_double (pre ++ "KRWR" ++ suf))
      ∧ (EclEpsConfig.construct.initFromState d
          EclTwoPhaseSystemType.EclOilWaterSystem pre suf).self.enablePcScaling
        = (d.has_double (pre ++ "PCW") || d.has_double "SWATINIT"))
    ∧ EclEpsConfig.construct.initFromState deckKrwOnly
          EclTwoPhaseSystemType.EclOilWaterSystem "" ""
        = { self :=
              { enableSatScaling_ := true
                enableThreePointKrSatScaling_ := false
                enablePcScaling_ := false
                enableLeverettScaling_ := false
                enableKrwScaling_ := true
                enableKrnScaling_ := false
                enableThreePointKrwScaling_ := false
                enableThreePointKrnScaling_ := false },
            threw := false } := by
  refine ⟨?_, by decide⟩
  intro d pre suf hend _
  have hWR : pre ++ "KR" ++ "WR" ++ suf = pre ++ "KRWR" ++ suf := hasKR_key pre "WR" suf
  have hORW : pre ++ "KR" ++ "ORW" ++ suf = pre ++ "KRORW" ++ suf := hasKR_key pre "ORW" suf
  have hO : pre ++ "KR" ++ "O" ++ suf = pre ++ "KRO" ++ suf := hasKR_key pre "O" suf
  have hW : pre ++ "KR" ++ "W" ++ suf = pre ++ "KRW" ++ suf := hasKR_key pre "W" suf
  have hPC : pre ++ "PC" ++ "W" = pre ++ "PCW" := hasPC_key pre "W"
  obtain ⟨e, t, u, f, has⟩ := d
  simp only at hend
  subst hend
  cases u <;>
    simp [EclEpsConfig.initFromState, EclEpsConfig.construct, hWR, hORW, hO, hW, hPC]

/-- Witness of C4: the general part applied to the deck of the example. -/
theorem initFromState_oilwater_flags_witness :
    deckKrwOnly.endscale = true
    ∧ (EclEpsConfig.construct.initFromState deckKrwOnly
          EclTwoPhaseSystemType.EclOilWaterSystem "" "").threw = false
    ∧ ((EclEpsConfig.construct.initFromState deckKrwOnly
          EclTwoPhaseSystemType.EclOilWaterSystem "" "").self.enableThreePointKrwScaling
        = deckKrwOnly.has_double ("" ++ "KRWR" ++ "")
      ∧ (EclEpsConfig.construct.initFromState deckKrwOnly
          EclTwoPhaseSystemType.EclOilWaterSystem "" "").self.enableThreePointKrnScaling
        = deckKrwOnly.has_double ("" ++ "KRORW" ++ "")
      ∧ (EclEpsConfig.construct.initFromState deckKrwOnly
          EclTwoPhaseSystemType.EclOilWaterSystem "" "").self.enableKrnScaling
        = (deckKrwOnly.has_double ("" ++ "KRO" ++ "")
            || deckKrwOnly.has_double ("" ++ "KRORW" ++ ""))
      ∧ (EclEpsConfig.construct.initFromState deckKrwOnly
          EclTwoPhaseSystemType.EclOilWaterSystem "" "").self.enableKrwScaling
        = (deckKrwOnly.has_double ("" ++ "KRW" ++ "")
            || deckKrwOnly.has_double ("" ++ "KRWR" ++ ""))
      ∧ (EclEpsConfig.construct.initFromState deckKrwOnly
          EclTwoPhaseSystemType.EclOilWaterSystem "" "").self.enablePcScaling
        = (deckKrwOnly.has_double ("" ++ "PCW") || deckKrwOnly.has_double "SWATINIT")) :=
  ⟨rfl, by decide, initFromState_oilwater_flags.1 deckKrwOnly "" "" rfl (by decide)⟩

/-- C5: for a gas-oil system, a deck with endpoint scaling and a freshly constructed
object, a call that does not throw leaves
`enableThreePointKrwScaling = has(prefix+"KRORG"+suffix)`,
`enableThreePointKrnScaling = has(prefix+"KRGR"+suffix)`,
`enableKrnScaling = has(prefix+"KRG"+suffix) or has(prefix+"KRGR"+suffix)`,
`enableKrwScaling = has(prefix+"KRO"+suffix) or has(prefix+"KRORG"+suffix)` and
`enablePcScaling = has(prefix+"PCG")`.  Moreover two decks that differ at most in
whether the field `SWATINIT` is present agree, for a gas-oil system, on whether the
call throws and on `enablePcScaling`. -/
theorem initFromState_gasoil_flags :
    (∀ (d : EclipseState) (pre suf : String), d.endscale = true →
      (EclEpsConfig.construct.initFromState d
          EclTwoPhaseSystemType.EclGasOilSystem pre suf).threw = false →
      (EclEpsConfig.construct.initFromState d
          EclTwoPhaseSystemType.EclGasOilSystem pre suf).self.enableThreePointKrwScaling
        = d.has_double (pre ++ "KRORG" ++ suf)
      ∧ (EclEpsConfig.construct.initFromState d
          EclTwoPhaseSystemType.EclGasOilSystem pre suf).self.enableThreePointKrnScaling
        = d.has_double (pre ++ "KRGR" ++ suf)
      ∧ (EclEpsConfig.construct.initFromState d
          EclTwoPhaseSystemType.EclGasOilSystem pre suf).self.enableKrnScaling
        = (d.has_double (pre ++ "KRG" ++ suf) || d.has_double (pre ++ "KRGR" ++ suf))
      ∧ (EclEpsConfig.construct.initFromState d
          EclTwoPhaseSystemType.EclGasOilSystem pre suf).self.enableKrwScaling
        = (d.has_double (pre ++ "KRO" ++ suf) || d.has_double (pre ++ "KRORG" ++ suf))
      ∧ (EclEpsConfig.construct.initFromState d
          EclTwoPhaseSystemType.EclGasOilSystem pre suf).self.enablePcScaling
        = d.has_double (pre ++ "PCG"))
    ∧ (∀ (d₁ d₂ : EclipseState) (pre suf : String),
        d₁.endscale = d₂.endscale → d₁.threepoint = d₂.threepoint →
        d₁.useJFunc = d₂.useJFunc → d₁.jfuncFlag = d₂.jfuncFlag →
        (∀ name : String, name ≠ "SWATINIT" → d₁.has_double name = d₂.has_double name) →
        (EclEpsConfig.construct.initFromState d₁
            EclTwoPhaseSystemType.EclGasOilSystem pre suf).threw
          = (EclEpsConfig.construct.initFromState d₂
              EclTwoPhaseSystemType.EclGasOilSystem pre suf).threw
        ∧ (EclEpsConfig.construct.initFromState d₁
            EclTwoPhaseSystemType.EclGasOilSystem pre suf).self.enablePcScaling
          = (EclEpsConfig.construct.initFromState d₂
              EclTwoPhaseSystemType.EclGasOilSystem pre suf).self.enablePcScaling) := by
  constructor
  · intro d pre suf hend _
    have hORG : pre ++ "KR" ++ "ORG" ++ suf = pre ++ "KRORG" ++ suf := hasKR_key pre "ORG" suf
    have hGR : pre ++ "KR" ++ "GR" ++ suf = pre ++ "KRGR" ++ suf := hasKR_key pre "GR" suf
    have hG : pre ++ "KR" ++ "G" ++ suf = pre ++ "KRG" ++ suf := hasKR_key pre "G" suf
    have hO : pre ++ "KR" ++ "O" ++ suf = pre ++ "KRO" ++ suf := hasKR_key pre "O" suf
    have hPC : pre ++ "PC" ++ "G" = pre ++ "PCG" := hasPC_key pre "G"
    obtain ⟨e, t, u, f, has⟩ := d
    simp only at hend
    subst hend
    cases u <;>
      simp [EclEpsConfig.initFromState, EclEpsConfig.construct, hORG, hGR, hG, hO, hPC]
  · intro d₁ d₂ pre suf he _ hu hf hhas
    have hkey := hhas (pre ++ "PC" ++ "G") (hasPC_G_ne_SWATINIT pre)
    obtain ⟨e₁, t₁, u₁, f₁, has₁⟩ := d₁
    obtain ⟨e₂, t₂, u₂, f₂, has₂⟩ := d₂
    simp only at he hu hf hkey
    subst he hu hf
    cases e₁ <;> cases u₁ <;>
      simp [EclEpsConfig.initFromState, EclEpsConfig.construct, hkey]

/-- Witness of C5: the general part on `deckPcgOnly`, and the comparison of
`deckPcgOnly` with `deckPcgSwatinit`, which differ only in the field `SWATINIT`. -/
theorem initFromState_gasoil_flags_witness :
    (deckPcgOnly.endscale = true
      ∧ (EclEpsConfig.construct.initFromState deckPcgOnly
          EclTwoPhaseSystemType.EclGasOilSystem "" "").threw = false
      ∧ (EclEpsConfig.construct.initFromState deckPcgOnly
          EclTwoPhaseSystemType.EclGasOilSystem "" "").self.enablePcScaling
        = deckPcgOnly.has_double ("" ++ "PCG"))
    ∧ (deckPcgOnly.has_double "SWATINIT" ≠ deckPcgSwatinit.has_double "SWATINIT"
      ∧ (EclEpsConfig.construct.initFromState deckPcgOnly
            EclTwoPhaseSystemType.EclGasOilSystem "" "").threw
          = (EclEpsConfig.construct.initFromState deckPcgSwatinit
              EclTwoPhaseSystemType.EclGasOilSystem "" "").threw
      ∧ (EclEpsConfig.construct.initFromState deckPcgOnly
            EclTwoPhaseSystemType.EclGasOilSystem "" "").self.enablePcScaling
          = (EclEpsConfig.construct.initFromState deckPcgSwatinit
              EclTwoPhaseSystemType.EclGasOilSystem "" "").self.enablePcScaling) :=
  ⟨⟨rfl, by decide,
      (initFromState_gasoil_flags.1 deckPcgOnly "" "" rfl (by decide)).2.2.2.2⟩,
    by decide,
    initFromState_gasoil_flags.2 deckPcgOnly deckPcgSwatinit "" "" rfl rfl rfl rfl
      (by intro name hne; simp [deckPcgOnly, deckPcgSwatinit, hne])⟩

/-- C6: for every system type, a deck with endpoint scaling and a freshly constructed
object, a call that does not throw leaves `enableLeverettScaling` true exactly when
the deck has a J-function whose flag is `BOTH`, or is `WATER` for an oil-water system,
or is `GAS` for a gas-oil system.  Hence it is false when the deck has no J-function,
flag `WATER` does not enable it for a gas-oil system and flag `GAS` does not enable it
for an oil-water system. -/
theorem initFromState_leverett_iff (d : EclipseState) (sys : EclTwoPhaseSystemType)
    (pre suf : String) (hend : d.endscale = true)
    (_hok : (EclEpsConfig.construct.initFromState d sys pre suf).threw = false) :
    ((EclEpsConfig.construct.initFromState d sys pre suf).self.enableLeverettScaling = true ↔
      d.useJFunc = true ∧
        (d.jfuncFlag = JFuncFlag.BOTH
          ∨ (sys = EclTwoPhaseSystemType.EclOilWaterSystem ∧ d.jfuncFlag = JFuncFlag.WATER)
          ∨ (sys = EclTwoPhaseSystemType.EclGasOilSystem ∧ d.jfuncFlag = JFuncFlag.GAS)))
    ∧ (d.useJFunc = false →
        (EclEpsConfig.construct.initFromState d sys pre suf).self.enableLeverettScaling = false)
    ∧ (sys = EclTwoPhaseSystemType.EclGasOilSystem → d.jfuncFlag = JFuncFlag.WATER →
        (EclEpsConfig.construct.initFromState d sys pre suf).self.enableLeverettScaling = false)
    ∧ (sys = EclTwoPhaseSystemType.EclOilWaterSystem → d.jfuncFlag = JFuncFlag.GAS →
        (EclEpsConfig.construct.initFromState d sys pre suf).self.enableLeverettScaling = false) := by
  obtain ⟨e, t, u, f, has⟩ := d
  simp only at hend
  subst hend
  cases u <;> cases sys <;> cases f <;>
    simp [EclEpsConfig.initFromState, EclEpsConfig.construct]

/-- Witness of C6: a gas-oil system on `deckJGas` (J-function for the gas phase). -/
theorem initFromState_leverett_iff_witness :
    deckJGas.endscale = true
    ∧ (EclEpsConfig.construct.initFromState deckJGas
          EclTwoPhaseSystemType.EclGasOilSystem "" "").threw = false
    ∧ (EclEpsConfig.construct.initFromState deckJGas
          EclTwoPhaseSystemType.EclGasOilSystem "" "").self.enableLeverettScaling = true :=
  ⟨rfl, by decide,
    (initFromState_leverett_iff deckJGas EclTwoPhaseSystemType.EclGasOilSystem "" "" rfl
      (by decide)).1.mpr ⟨rfl, Or.inr (Or.inr ⟨rfl, rfl⟩)⟩⟩

/-- Counterexample to C7 as stated: for a gas-water system, the deck `deckJBoth`
(endpoint scaling, J-function with flag `BOTH`) and a freshly constructed object, the
call does not throw and leaves `enableLeverettScaling` true. -/
theorem initFromState_gaswater_leverett_counterexample :
    (EclEpsConfig.construct.initFromState deckJBoth
        EclTwoPhaseSystemType.EclGasWaterSystem "" "").threw = false
    ∧ (EclEpsConfig.construct.initFromState deckJBoth
        EclTwoPhaseSystemType.EclGasWaterSystem "" "").self.enableLeverettScaling = true := by
  decide

/-- C7, amended: for a gas-water system and a freshly constructed object,
`initFromState` never throws, and it leaves `enableLeverettScaling` true exactly when
the deck has endpoint scaling and a J-function whose flag is `BOTH`; the flags `WATER`
and `GAS` never enable it. -/
theorem initFromState_gaswater_leverett (d : EclipseState) (pre suf : String) :
    (EclEpsConfig.construct.initFromState d
        EclTwoPhaseSystemType.EclGasWaterSystem pre suf).threw = false
    ∧ ((EclEpsConfig.construct.initFromState d
          EclTwoPhaseSystemType.EclGasWaterSystem pre suf).self.enableLeverettScaling = true ↔
        d.endscale = true ∧ d.useJFunc = true ∧ d.jfuncFlag = JFuncFlag.BOTH) := by
  obtain ⟨e, t, u, f, has⟩ := d
  cases e <;> cases u <;> cases f <;>
    simp [EclEpsConfig.initFromState, EclEpsConfig.construct]

/-- Counterexample to C8 as stated: the oil-water deck `deckSwatinitNoEndscale` has the
field `SWATINIT` and no field `PCW`, and the call on a freshly constructed object
leaves `enablePcScaling` false, because the deck has no endpoint scaling. -/
theorem initFromState_swatinit_counterexample :
    deckSwatinitNoEndscale.has_double "SWATINIT" = true
    ∧ deckSwatinitNoEndscale.has_double ("" ++ "PCW") = false
    ∧ (EclEpsConfig.construct.initFromState deckSwatinitNoEndscale
        EclTwoPhaseSystemType.EclOilWaterSystem "" "").threw = false
    ∧ (EclEpsConfig.construct.initFromState deckSwatinitNoEndscale
        EclTwoPhaseSystemType.EclOilWaterSystem "" "").self.enablePcScaling = false := by
  decide

/-- C8, amended: for an oil-water system and a deck with endpoint scaling in which the
field `SWATINIT` is present and the field `prefix+"PCW"` is absent, `initFromState` on a
freshly constructed object leaves `enablePcScaling` true. -/
theorem initFromState_swatinit_pc (d : EclipseState) (pre suf : String)
    (hend : d.endscale = true) (hswat : d.has_double "SWATINIT" = true)
    (_hpcw : d.has_double (pre ++ "PCW") = false) :
    (EclEpsConfig.construct.initFromState d
        EclTwoPhaseSystemType.EclOilWaterSystem pre suf).self.enablePcScaling = true := by
  obtain ⟨e, t, u, f, has⟩ := d
  simp only at hend hswat
  subst hend
  cases u <;>
    simp [EclEpsConfig.initFromState, EclEpsConfig.construct, hswat]

/-- Witness of C8, amended: the deck `deckSwatinit`. -/
theorem initFromState_swatinit_pc_witness :
    deckSwatinit.endscale = true
    ∧ deckSwatinit.has_double "SWATINIT" = true
    ∧ deckSwatinit.has_double ("" ++ "PCW") = false
    ∧ (EclEpsConfig.construct.initFromState deckSwatinit
        EclTwoPhaseSystemType.EclOilWaterSystem "" "").self.enablePcScaling = true :=
  ⟨rfl, by decide, by decide,
    initFromState_swatinit_pc deckSwatinit "" "" rfl (by decide) (by decide)⟩

/-- C9: for every deck, system type, prefix and suffix, a call on a freshly constructed
object that does not throw leaves `enableThreePointKrwScaling → enableKrwScaling` and
`enableThreePointKrnScaling → enableKrnScaling`; in particular, for an oil-water system,
a deck with endpoint scaling and the field `prefix+"KRWR"+suffix` present, both
`enableThreePointKrwScaling` and `enableKrwScaling` are true. -/
theorem initFromState_three_point_implies_kr (d : EclipseState) (sys : EclTwoPhaseSystemType)
    (pre suf : String)
    (_hok : (EclEpsConfig.construct.initFromState d sys pre suf).threw = false) :
    ((EclEpsConfig.construct.initFromState d sys pre suf).self.enableThreePointKrwScaling = true →
      (EclEpsConfig.construct.initFromState d sys pre suf).self.enableKrwScaling = true)
    ∧ ((EclEpsConfig.construct.initFromState d sys pre suf).self.enableThreePointKrnScaling = true →
      (EclEpsConfig.construct.initFromState d sys pre suf).self.enableKrnScaling = true)
    ∧ (sys = EclTwoPhaseSystemType.EclOilWaterSystem → d.endscale = true →
        d.has_double (pre ++ "KRWR" ++ suf) = true →
        (EclEpsConfig.construct.initFromState d sys pre suf).self.enableThreePointKrwScaling = true
        ∧ (EclEpsConfig.construct.initFromState d sys pre suf).self.enableKrwScaling = true) := by
  have hWR : pre ++ "KR" ++ "WR" ++ suf = pre ++ "KRWR" ++ suf := hasKR_key pre "WR" suf
  obtain ⟨e, t, u, f, has⟩ := d
  cases e <;> cases u <;> cases sys <;>
    simp [EclEpsConfig.initFromState, EclEpsConfig.construct, hWR] <;>
    tauto

/-- Witness of C9: the oil-water deck `deckKrwrOnly`, whose only field is `KRWR`. -/
theorem initFromState_three_point_implies_kr_witness :
    (EclEpsConfig.construct.initFromState deckKrwrOnly
        EclTwoPhaseSystemType.EclOilWaterSystem "" "").threw = false
    ∧ deckKrwrOnly.has_double ("" ++ "KRWR" ++ "") = true
    ∧ (EclEpsConfig.construct.initFromState deckKrwrOnly
        EclTwoPhaseSystemType.EclOilWaterSystem "" "").self.enableThreePointKrwScaling = true
    ∧ (EclEpsConfig.construct.initFromState deckKrwrOnly
        EclTwoPhaseSystemType.EclOilWaterSystem "" "").self.enableKrwScaling = true :=
  ⟨by decide, by decide,
    (initFromState_three_point_implies_kr deckKrwrOnly
      EclTwoPhaseSystemType.EclOilWaterSystem "" "" (by decide)).2.2 rfl rfl (by decide)⟩

/-- Counterexample to C10 as stated: on the gas-water deck `deckPlain` (endpoint
scaling, no J-function) the outcome depends on the object the call is made on.  A
freshly constructed object and one with `enableKrwScaling` set both come through
without a throw but with different `enableKrwScaling`; and on an object with every
flag set the call throws, whereas on a fresh one it does not. -/
theorem initFromState_prior_state_counterexample :
    ((EclEpsConfig.construct.initFromState deckPlain
        EclTwoPhaseSystemType.EclGasWaterSystem "" "").threw = false
      ∧ (configKrwSet.initFromState deckPlain
          EclTwoPhaseSystemType.EclGasWaterSystem "" "").threw = false
      ∧ (EclEpsConfig.construct.initFromState deckPlain
          EclTwoPhaseSystemType.EclGasWaterSystem "" "").self.enableKrwScaling = false
      ∧ (configKrwSet.initFromState deckPlain
          EclTwoPhaseSystemType.EclGasWaterSystem "" "").self.enableKrwScaling = true)
    ∧ (configAllSet.initFromState deckPlain
          EclTwoPhaseSystemType.EclGasWaterSystem "" "").threw = true := by
  decide

/-- C10, amended: for any two prior states of the object and the same deck, system
type, prefix and suffix,
* without endpoint scaling neither call throws and the two agree on `enableSatScaling`,
  `enableThreePointKrSatScaling`, `enablePcScaling`, `enableLeverettScaling`,
  `enableKrwScaling` and `enableKrnScaling`;
* with endpoint scaling the two agree on `enableSatScaling` and
  `enableThreePointKrSatScaling`; on `enableLeverettScaling` when the deck has a
  J-function; on `enablePcScaling`, `enableKrwScaling`, `enableKrnScaling`,
  `enableThreePointKrwScaling` and `enableThreePointKrnScaling` when the system is not
  gas-water; and, when the deck has a J-function and the system is not gas-water, on
  whether the call throws and on all eight flags. -/
theorem initFromState_prior_state_agreement (c₁ c₂ : EclEpsConfig) (d : EclipseState)
    (sys : EclTwoPhaseSystemType) (pre suf : String) :
    (d.endscale = false →
      (c₁.initFromState d sys pre suf).threw = false
      ∧ (c₂.initFromState d sys pre suf).threw = false
      ∧ (c₁.initFromState d sys pre suf).self.enableSatScaling
          = (c₂.initFromState d sys pre suf).self.enableSatScaling
      ∧ (c₁.initFromState d sys pre suf).self.enableThreePointKrSatScaling
          = (c₂.initFromState d sys pre suf).self.enableThreePointKrSatScaling
      ∧ (c₁.initFromState d sys pre suf).self.enablePcScaling
          = (c₂.initFromState d sys pre suf).self.enablePcScaling
      ∧ (c₁.initFromState d sys pre suf).self.enableLeverettScaling
          = (c₂.initFromState d sys pre suf).self.enableLeverettScaling
      ∧ (c₁.initFromState d sys pre suf).self.enableKrwScaling
          = (c₂.initFromState d sys pre suf).self.enableKrwScaling
      ∧ (c₁.initFromState d sys pre suf).self.enableKrnScaling
          = (c₂.initFromState d sys pre suf).self.enableKrnScaling)
    ∧ (d.endscale = true →
      (c₁.initFromState d sys pre suf).self.enableSatScaling
          = (c₂.initFromState d sys pre suf).self.enableSatScaling
      ∧ (c₁.initFromState d sys pre suf).self.enableThreePointKrSatScaling
          = (c₂.initFromState d sys pre suf).self.enableThreePointKrSatScaling
      ∧ (d.useJFunc = true →
          (c₁.initFromState d sys pre suf).self.enableLeverettScaling
            = (c₂.initFromState d sys pre suf).self.enableLeverettScaling)
      ∧ (sys ≠ EclTwoPhaseSystemType.EclGasWaterSystem →
          (c₁.initFromState d sys pre suf).self.enablePcScaling
            = (c₂.initFromState d sys pre suf).self.enablePcScaling
          ∧ (c₁.initFromState d sys pre suf).self.enableKrwScaling
            = (c₂.initFromState d sys pre suf).self.enableKrwScaling
          ∧ (c₁.initFromState d sys pre suf).self.enableKrnScaling
            = (c₂.initFromState d sys pre suf).self.enableKrnScaling
          ∧ (c₁.initFromState d sys pre suf).self.enableThreePointKrwScaling
            = (c₂.initFromState d sys pre suf).self.enableThreePointKrwScaling
          ∧ (c₁.initFromState d sys pre suf).self.enableThreePointKrnScaling
            = (c₂.initFromState d sys pre suf).self.enableThreePointKrnScaling)
      ∧ (d.useJFunc = true → sys ≠ EclTwoPhaseSystemType.EclGasWaterSystem →
          c₁.initFromState d sys pre suf = c₂.initFromState d sys pre suf)) := by
  obtain ⟨e, t, u, f, has⟩ := d
  cases e <;> cases u <;> cases sys <;>
    simp [EclEpsConfig.initFromState]

/-- Witness of C10, amended: a fresh object and one with every flag set, on the
oil-water deck `deckConflict` (endpoint scaling, J-function for the water phase, field
`PCW`): both calls end the same way, here with a throw, and leave the same object. -/
theorem initFromState_prior_state_agreement_witness :
    deckConflict.endscale = true ∧ deckConflict.useJFunc = true
    ∧ EclEpsConfig.construct ≠ configAllSet
    ∧ EclEpsConfig.construct.initFromState deckConflict
          EclTwoPhaseSystemType.EclOilWaterSystem "" ""
        = configAllSet.initFromState deckConflict
            EclTwoPhaseSystemType.EclOilWaterSystem "" "" :=
  ⟨rfl, rfl, by decide,
    ((initFromState_prior_state_agreement EclEpsConfig.construct configAllSet deckConflict
        EclTwoPhaseSystemType.EclOilWaterSystem "" "").2 rfl).2.2.2.2 rfl (by decide)⟩

/-- C11: `initFromState` is idempotent.  For every prior state of the object and every
deck, system type, prefix and suffix, if a call does not throw and leaves the object
`s`, a second call on `s` with the same arguments does not throw either and leaves
exactly `s`. -/
theorem initFromState_idempotent (c : EclEpsConfig) (d : EclipseState)
    (sys : EclTwoPhaseSystemType) (pre suf : String)
    (h : (c.initFromState d sys pre suf).threw = false) :
    ((c.initFromState d sys pre suf).self.initFromState d sys pre suf).threw = false
    ∧ ((c.initFromState d sys pre suf).self.initFromState d sys pre suf).self
        = (c.initFromState d sys pre suf).self := by
  have key : (c.initFromState d sys pre suf).self.initFromState d sys pre suf
      = c.initFromState d sys pre suf := by
    obtain ⟨e, t, u, f, has⟩ := d
    cases e <;> cases u <;> cases sys <;>
      simp [EclEpsConfig.initFromState]
  rw [key]
  exact ⟨h, rfl⟩

/-- Witness of C11: an object with `enableKrwScaling` set, on the oil-water deck
`deckAllFields`. -/
theorem initFromState_idempotent_witness :
    (configKrwSet.initFromState deckAllFields
        EclTwoPhaseSystemType.EclOilWaterSystem "" "").threw = false
    ∧ ((configKrwSet.initFromState deckAllFields
          EclTwoPhaseSystemType.EclOilWaterSystem "" "").self.initFromState deckAllFields
        EclTwoPhaseSystemType.EclOilWaterSystem "" "").threw = false
    ∧ ((configKrwSet.initFromState deckAllFields
          EclTwoPhaseSystemType.EclOilWaterSystem "" "").self.initFromState deckAllFields
        EclTwoPhaseSystemType.EclOilWaterSystem "" "").self
      = (configKrwSet.initFromState deckAllFields
          EclTwoPhaseSystemType.EclOilWaterSystem "" "").self :=
  ⟨by decide, initFromState_idempotent configKrwSet deckAllFields
    EclTwoPhaseSystemType.EclOilWaterSystem "" "" (by decide)⟩

/-- C12: for a gas-water system and a deck with endpoint scaling, `initFromState`
assigns no relative-permeability or capillary-pressure flag: for every prior state of
the object and every set of fields, after a call that does not throw
`enablePcScaling`, `enableKrwScaling`, `enableKrnScaling`, `enableThreePointKrwScaling`
and `enableThreePointKrnScaling` have the values they had before the call.  So from a
freshly constructed object the call does not throw and all five are false, whatever
fields the deck has. -/
theorem initFromState_gaswater_frame :
    (∀ (c : EclEpsConfig) (d : EclipseState) (pre suf : String), d.endscale = true →
      (c.initFromState d EclTwoPhaseSystemType.EclGasWaterSystem pre suf).threw = false →
      (c.initFromState d EclTwoPhaseSystemType.EclGasWaterSystem pre suf).self.enablePcScaling
        = c.enablePcScaling
      ∧ (c.initFromState d EclTwoPhaseSystemType.EclGasWaterSystem pre suf).self.enableKrwScaling
        = c.enableKrwScaling
      ∧ (c.initFromState d EclTwoPhaseSystemType.EclGasWaterSystem pre suf).self.enableKrnScaling
        = c.enableKrnScaling
      ∧ (c.initFromState d
          EclTwoPhaseSystemType.EclGasWaterSystem pre suf).self.enableThreePointKrwScaling
        = c.enableThreePointKrwScaling
      ∧ (c.initFromState d
          EclTwoPhaseSystemType.EclGasWaterSystem pre suf).self.enableThreePointKrnScaling
        = c.enableThreePointKrnScaling)
    ∧ (∀ (d : EclipseState) (pre suf : String), d.endscale = true →
      (EclEpsConfig.construct.initFromState d
          EclTwoPhaseSystemType.EclGasWaterSystem pre suf).threw = false
      ∧ (EclEpsConfig.construct.initFromState d
          EclTwoPhaseSystemType.EclGasWaterSystem pre suf).self.enablePcScaling = false
      ∧ (EclEpsConfig.construct.initFromState d
          EclTwoPhaseSystemType.EclGasWaterSystem pre suf).self.enableKrwScaling = false
      ∧ (EclEpsConfig.construct.initFromState d
          EclTwoPhaseSystemType.EclGasWaterSystem pre suf).self.enableKrnScaling = false
      ∧ (EclEpsConfig.construct.initFromState d
          EclTwoPhaseSystemType.EclGasWaterSystem pre suf).self.enableThreePointKrwScaling
        = false
      ∧ (EclEpsConfig.construct.initFromState d
          EclTwoPhaseSystemType.EclGasWaterSystem pre suf).self.enableThreePointKrnScaling
        = false) := by
  constructor
  · intro c d pre suf hend _
    obtain ⟨e, t, u, f, has⟩ := d
    simp only at hend
    subst hend
    cases u <;> simp [EclEpsConfig.initFromState]
  · intro d pre suf hend
    obtain ⟨e, t, u, f, has⟩ := d
    simp only at hend
    subst hend
    cases u <;> simp [EclEpsConfig.initFromState, EclEpsConfig.construct]

/-- Witness of C12: an object with `enableKrwScaling` set and the deck `deckAllFields`,
in which every field is present. -/
theorem initFromState_gaswater_frame_witness :
    deckAllFields.endscale = true
    ∧ deckAllFields.has_double "KRW" = true
    ∧ (configKrwSet.initFromState deckAllFields
        EclTwoPhaseSystemType.EclGasWaterSystem "" "").threw = false
    ∧ ((configKrwSet.initFromState deckAllFields
          EclTwoPhaseSystemType.EclGasWaterSystem "" "").self.enablePcScaling
        = configKrwSet.enablePcScaling
      ∧ (configKrwSet.initFromState deckAllFields
          EclTwoPhaseSystemType.EclGasWaterSystem "" "").self.enableKrwScaling
        = configKrwSet.enableKrwScaling
      ∧ (configKrwSet.initFromState deckAllFields
          EclTwoPhaseSystemType.EclGasWaterSystem "" "").self.enableKrnScaling
        = configKrwSet.enableKrnScaling
      ∧ (configKrwSet.initFromState deckAllFields
          EclTwoPhaseSystemType.EclGasWaterSystem "" "").self.enableThreePointKrwScaling
        = configKrwSet.enableThreePointKrwScaling
      ∧ (configKrwSet.initFromState deckAllFields
          EclTwoPhaseSystemType.EclGasWaterSystem "" "").self.enableThreePointKrnScaling
        = configKrwSet.enableThreePointKrnScaling) :=
  ⟨rfl, rfl, by decide,
    initFromState_gaswater_frame.1 configKrwSet deckAllFields "" "" rfl (by decide)⟩

/-- C13: a default-constructed `EclEpsConfig` has all eight flags false: each of the
eight getters returns `false`. -/
theorem construct_all_false :
    EclEpsConfig.construct.enableSatScaling = false
    ∧ EclEpsConfig.construct.enableThreePointKrSatScaling = false
    ∧ EclEpsConfig.construct.enablePcScaling = false
    ∧ EclEpsConfig.construct.enableLeverettScaling = false
    ∧ EclEpsConfig.construct.enableKrwScaling = false
    ∧ EclEpsConfig.construct.enableKrnScaling = false
    ∧ EclEpsConfig.construct.enableThreePointKrwScaling = false
    ∧ EclEpsConfig.construct.enableThreePointKrnScaling = false :=
  ⟨rfl, rfl, rfl, rfl, rfl, rfl, rfl, rfl⟩

end Opm

namespace Dumux

/-- With `fuel = n` the halving of `binaryDigits` runs to the end: the result is the
position of the leading binary digit of `n`. -/
theorem binaryDigits_spec (fuel n : ℕ) (hle : n ≤ fuel) (hn : n ≠ 0) :
    2 ^ (binaryDigits fuel n - 1) ≤ n ∧ n < 2 ^ binaryDigits fuel n := by
  induction fuel generalizing n with
  | zero => omega
  | succ fuel ih =>
    rw [binaryDigits, if_neg hn]
    by_cases h2 : n / 2 = 0
    · have h1 : n = 1 := by omega
      subst h1
      cases fuel <;> simp [binaryDigits]
    · obtain ⟨hlo, hhi⟩ := ih (n / 2) (by omega) h2
      have hpos : 1 ≤ binaryDigits fuel (n / 2) := by
        by_contra hc
        have h0 : binaryDigits fuel (n / 2) = 0 := by omega
        rw [h0] at hhi
        simp at hhi
        exact h2 hhi
      constructor
      · have hexp : binaryDigits fuel (n / 2) + 1 - 1 = (binaryDigits fuel (n / 2) - 1) + 1 := by
          omega
        rw [hexp, pow_succ]
        omega
      · rw [pow_succ]
        omega

/-- The literal `0.05` as a `double`. -/
theorem doubleLiteral_0_05 : doubleLiteral 5 2 = 3602879701896397 / 2 ^ 56 := by
  have h : nearestDoubleSignificand 5 (10 ^ 2) = (7205759403792794, 57) := by decide
  unfold doubleLiteral
  rw [h]
  norm_num

/-- The literal `0.15` as a `double`. -/
theorem doubleLiteral_0_15 : doubleLiteral 15 2 = 5404319552844595 / 2 ^ 55 := by
  have h : nearestDoubleSignificand 15 (10 ^ 2) = (5404319552844595, 55) := by decide
  unfold doubleLiteral
  rw [h]
  norm_num

/-- The literal `0.85` as a `double`. -/
theorem doubleLiteral_0_85 : doubleLiteral 85 2 = 7656119366529843 / 2 ^ 53 := by
  have h : nearestDoubleSignificand 85 (10 ^ 2) = (7656119366529843, 53) := by decide
  unfold doubleLiteral
  rw [h]
  norm_num

/-- Counterexample to C14 as stated: on a default-constructed object (with a base class
without state) the three thresholds, taken as exact rationals, are not `1/20`, `3/20`
and `17/20`: the code returns the `double` literals `0.05`, `0.15` and `0.85`. -/
theorem regularized_thresholds_counterexample :
    (RegularizedBrooksCoreyParams.construct () :
        RegularizedBrooksCoreyParams Double Unit).pCLowSw ≠ 1 / 20
    ∧ (RegularizedBrooksCoreyParams.construct () :
        RegularizedBrooksCoreyParams Double Unit).krnLowSw ≠ 3 / 20
    ∧ (RegularizedBrooksCoreyParams.construct () :
        RegularizedBrooksCoreyParams Double Unit).krwHighSw ≠ 17 / 20 := by
  simp only [RegularizedBrooksCoreyParams.pCLowSw, RegularizedBrooksCoreyParams.krnLowSw,
    RegularizedBrooksCoreyParams.krwHighSw, doubleLiteral_0_05, doubleLiteral_0_15,
    doubleLiteral_0_85]
  norm_num

/-- C14, amended: for every `RegularizedBrooksCoreyParams<double>` object, whether
default-constructed or constructed from any entry pressure `pe` and exponent `alpha`,
the thresholds are fixed constants, independent of `pe` and `alpha`: the `double`s
nearest to 5%, 15% and 85%, which are `pCLowSw() = 3602879701896397 / 2^56`,
`krnLowSw() = 5404319552844595 / 2^55` and `krwHighSw() = 7656119366529843 / 2^53` as
exact rationals (each within half a unit in the last place of `1/20`, `3/20`,
`17/20`); and `0 < pCLowSw() < krnLowSw() < krwHighSw() < 1`. -/
theorem regularized_thresholds (Base : Type) (baseConstruct : Base)
    (baseConstructPeAlpha : Double → Double → Base) (pe alpha : Double)
    (params : RegularizedBrooksCoreyParams Double Base) :
    (params.pCLowSw = 3602879701896397 / 2 ^ 56
      ∧ params.krnLowSw = 5404319552844595 / 2 ^ 55
      ∧ params.krwHighSw = 7656119366529843 / 2 ^ 53)
    ∧ ((RegularizedBrooksCoreyParams.construct baseConstruct :
          RegularizedBrooksCoreyParams Double Base).pCLowSw = 3602879701896397 / 2 ^ 56
      ∧ (RegularizedBrooksCoreyParams.construct baseConstruct :
          RegularizedBrooksCoreyParams Double Base).krnLowSw = 5404319552844595 / 2 ^ 55
      ∧ (RegularizedBrooksCoreyParams.construct baseConstruct :
          RegularizedBrooksCoreyParams Double Base).krwHighSw = 7656119366529843 / 2 ^ 53)
    ∧ ((RegularizedBrooksCoreyParams.constructPeAlpha baseConstructPeAlpha pe alpha).pCLowSw
        = 3602879701896397 / 2 ^ 56
      ∧ (RegularizedBrooksCoreyParams.constructPeAlpha baseConstructPeAlpha pe alpha).krnLowSw
        = 5404319552844595 / 2 ^ 55
      ∧ (RegularizedBrooksCoreyParams.constructPeAlpha baseConstructPeAlpha pe alpha).krwHighSw
        = 7656119366529843 / 2 ^ 53)
    ∧ (|params.pCLowSw - 1 / 20| < 1 / 2 ^ 58
      ∧ |params.krnLowSw - 3 / 20| < 1 / 2 ^ 56
      ∧ |params.krwHighSw - 17 / 20| < 1 / 2 ^ 54)
    ∧ (0 < params.pCLowSw ∧ params.pCLowSw < params.krnLowSw
      ∧ params.krnLowSw < params.krwHighSw ∧ params.krwHighSw < 1) := by
  have h₁ : ∀ p : RegularizedBrooksCoreyParams Double Base,
      p.pCLowSw = 3602879701896397 / 2 ^ 56 := fun _ => doubleLiteral_0_05
  have h₂ : ∀ p : RegularizedBrooksCoreyParams Double Base,
      p.krnLowSw = 5404319552844595 / 2 ^ 55 := fun _ => doubleLiteral_0_15
  have h₃ : ∀ p : RegularizedBrooksCoreyParams Double Base,
      p.krwHighSw = 7656119366529843 / 2 ^ 53 := fun _ => doubleLiteral_0_85
  refine ⟨⟨h₁ _, h₂ _, h₃ _⟩, ⟨h₁ _, h₂ _, h₃ _⟩, ⟨h₁ _, h₂ _, h₃ _⟩, ?_, ?_⟩
  · rw [h₁, h₂, h₃]
    refine ⟨?_, ?_, ?_⟩ <;> rw [abs_lt] <;> norm_num
  · rw [h₁, h₂, h₃]
    norm_num

end Dumux

namespace Opm

/-- C15: for every prior state of the object and every input, after a call of
`initFromState` that does not throw, `enableSatScaling` tells whether the deck has
endpoint scaling, and `enableThreePointKrSatScaling` tells whether the deck has endpoint
scaling and requests three-point scaling. -/
theorem initFromState_sat_flags (c : EclEpsConfig) (d : EclipseState)
    (sys : EclTwoPhaseSystemType) (pre suf : String)
    (_hok : (c.initFromState d sys pre suf).threw = false) :
    (c.initFromState d sys pre suf).self.enableSatScaling = d.endscale
    ∧ (c.initFromState d sys pre suf).self.enableThreePointKrSatScaling
        = (d.endscale && d.threepoint) := by
  obtain ⟨e, t, u, f, has⟩ := d
  cases e <;> cases u <;> cases sys <;>
    simp [EclEpsConfig.initFromState]

/-- Witness of C15: an object with every flag set, a gas-oil system and the deck
`deckJGas`, which has endpoint scaling and no three-point request: the call clears
`enableThreePointKrSatScaling`. -/
theorem initFromState_sat_flags_witness :
    (configAllSet.initFromState deckJGas
        EclTwoPhaseSystemType.EclGasOilSystem "" "").threw = false
    ∧ (configAllSet.initFromState deckJGas
        EclTwoPhaseSystemType.EclGasOilSystem "" "").self.enableSatScaling
      = deckJGas.endscale
    ∧ (configAllSet.initFromState deckJGas
        EclTwoPhaseSystemType.EclGasOilSystem "" "").self.enableThreePointKrSatScaling
      = (deckJGas.endscale && deckJGas.threepoint) :=
  ⟨by decide, initFromState_sat_flags configAllSet deckJGas
    EclTwoPhaseSystemType.EclGasOilSystem "" "" (by decide)⟩

/-- C16: the capillary-pressure lookup ignores the suffix and the `SWATINIT` lookup
ignores prefix and suffix.  For every prior state of the object, deck, system type and
prefix, and any two suffixes `s₁` and `s₂`, the call with `s₁` throws if and only if
the call with `s₂` throws, and when neither throws they leave the same
`enablePcScaling` and the same `enableLeverettScaling`. -/
theorem initFromState_suffix_independent (c : EclEpsConfig) (d : EclipseState)
    (sys : EclTwoPhaseSystemType) (pre s₁ s₂ : String) :
    ((c.initFromState d sys pre s₁).threw = true ↔ (c.initFromState d sys pre s₂).threw = true)
    ∧ ((c.initFromState d sys pre s₁).threw = false →
        (c.initFromState d sys pre s₂).threw = false →
        (c.initFromState d sys pre s₁).self.enablePcScaling
          = (c.initFromState d sys pre s₂).self.enablePcScaling
        ∧ (c.initFromState d sys pre s₁).self.enableLeverettScaling
          = (c.initFromState d sys pre s₂).self.enableLeverettScaling) := by
  obtain ⟨e, t, u, f, has⟩ := d
  cases e <;> cases u <;> cases sys <;>
    simp [EclEpsConfig.initFromState]

/-- Witness of C16: the oil-water deck `deckPcwKrwX` with the suffixes `""` and `"X"`.
The suffix decides whether `KRW`+suffix is found, so `enableKrwScaling` differs, while
`enablePcScaling` and `enableLeverettScaling` do not. -/
theorem initFromState_suffix_independent_witness :
    (EclEpsConfig.construct.initFromState deckPcwKrwX
        EclTwoPhaseSystemType.EclOilWaterSystem "" "").self.enableKrwScaling
      ≠ (EclEpsConfig.construct.initFromState deckPcwKrwX
        EclTwoPhaseSystemType.EclOilWaterSystem "" "X").self.enableKrwScaling
    ∧ (EclEpsConfig.construct.initFromState deckPcwKrwX
        EclTwoPhaseSystemType.EclOilWaterSystem "" "").self.enablePcScaling
      = (EclEpsConfig.construct.initFromState deckPcwKrwX
        EclTwoPhaseSystemType.EclOilWaterSystem "" "X").self.enablePcScaling
    ∧ (EclEpsConfig.construct.initFromState deckPcwKrwX
        EclTwoPhaseSystemType.EclOilWaterSystem "" "").self.enableLeverettScaling
      = (EclEpsConfig.construct.initFromState deckPcwKrwX
        EclTwoPhaseSystemType.EclOilWaterSystem "" "X").self.enableLeverettScaling :=
  ⟨by decide,
    (initFromState_suffix_independent EclEpsConfig.construct deckPcwKrwX
      EclTwoPhaseSystemType.EclOilWaterSystem "" "" "X").2 (by decide) (by decide)⟩

/-- C17, the code at the failing input: on the deck `deckNoEndscale`, which has no
endpoint scaling, a call on an object on which `setEnableThreePointKrwScaling(true)` was
called does not throw and leaves `enableThreePointKrwScaling` true; the other seven
flags are false. -/
theorem initFromState_no_endscale_keeps_three_point :
    deckNoEndscale.endscale = false
    ∧ configThreePointKrwSet.initFromState deckNoEndscale
          EclTwoPhaseSystemType.EclOilWaterSystem "" ""
        = { self :=
              { enableSatScaling_ := false
                enableThreePointKrSatScaling_ := false
                enablePcScaling_ := false
                enableLeverettScaling_ := false
                enableKrwScaling_ := false
                enableKrnScaling_ := false
                enableThreePointKrwScaling_ := true
                enableThreePointKrnScaling_ := false },
            threw := false } := by
  decide

/-- Counterexample to C18 as stated: on the gas-water deck `deckPlain`, which has
endpoint scaling and no field at all, the call throws both on an object with every
flag set and on an object with only `enablePcScaling` and `enableLeverettScaling` set,
and it leaves `enableKrwScaling` true on the first and false on the second: after the
throw the flag is the one the object had before the call, not one derived from the
deck. -/
theorem initFromState_throw_kr_counterexample :
    (configAllSet.initFromState deckPlain
        EclTwoPhaseSystemType.EclGasWaterSystem "" "").threw = true
    ∧ (configPcLeverettSet.initFromState deckPlain
        EclTwoPhaseSystemType.EclGasWaterSystem "" "").threw = true
    ∧ (configAllSet.initFromState deckPlain
        EclTwoPhaseSystemType.EclGasWaterSystem "" "").self.enableKrwScaling = true
    ∧ (configPcLeverettSet.initFromState deckPlain
        EclTwoPhaseSystemType.EclGasWaterSystem "" "").self.enableKrwScaling = false := by
  decide

/-- C18, amended: `initFromState` is not atomic on error.  Whenever the call throws, the
object has been assigned before and is left with `enableSatScaling`, `enablePcScaling`
and `enableLeverettScaling` true; the relative-permeability flags and their three-point
flags are those derived from the deck for an oil-water and for a gas-oil system, and
those the object had before the call for a gas-water system.  Example: a freshly
constructed object with the oil-water deck `deckConflict` (endpoint scaling, field
`PCW`, J-function flag `WATER`) ends, after the throw, in a state that is not the
all-false state it had before. -/
theorem initFromState_throw_state :
    (∀ (c : EclEpsConfig) (d : EclipseState) (sys : EclTwoPhaseSystemType) (pre suf : String),
      (c.initFromState d sys pre suf).threw = true →
      (c.initFromState d sys pre suf).self.enableSatScaling = true
      ∧ (c.initFromState d sys pre suf).self.enablePcScaling = true
      ∧ (c.initFromState d sys pre suf).self.enableLeverettScaling = true
      ∧ (sys = EclTwoPhaseSystemType.EclOilWaterSystem →
          (c.initFromState d sys pre suf).self.enableThreePointKrwScaling
            = d.has_double (pre ++ "KRWR" ++ suf)
          ∧ (c.initFromState d sys pre suf).self.enableThreePointKrnScaling
            = d.has_double (pre ++ "KRORW" ++ suf)
          ∧ (c.initFromState d sys pre suf).self.enableKrnScaling
            = (d.has_double (pre ++ "KRO" ++ suf) || d.has_double (pre ++ "KRORW" ++ suf))
          ∧ (c.initFromState d sys pre suf).self.enableKrwScaling
            = (d.has_double (pre ++ "KRW" ++ suf) || d.has_double (pre ++ "KRWR" ++ suf)))
      ∧ (sys = EclTwoPhaseSystemType.EclGasOilSystem →
          (c.initFromState d sys pre suf).self.enableThreePointKrwScaling
            = d.has_double (pre ++ "KRORG" ++ suf)
          ∧ (c.initFromState d sys pre suf).self.enableThreePointKrnScaling
            = d.has_double (pre ++ "KRGR" ++ suf)
          ∧ (c.initFromState d sys pre suf).self.enableKrnScaling
            = (d.has_double (pre ++ "KRG" ++ suf) || d.has_double (pre ++ "KRGR" ++ suf))
          ∧ (c.initFromState d sys pre suf).self.enableKrwScaling
            = (d.has_double (pre ++ "KRO" ++ suf) || d.has_double (pre ++ "KRORG" ++ suf)))
      ∧ (sys = EclTwoPhaseSystemType.EclGasWaterSystem →
          (c.initFromState d sys pre suf).self.enableThreePointKrwScaling
            = c.enableThreePointKrwScaling
          ∧ (c.initFromState d sys pre suf).self.enableThreePointKrnScaling
            = c.enableThreePointKrnScaling
          ∧ (c.initFromState d sys pre suf).self.enableKrnScaling = c.enableKrnScaling
          ∧ (c.initFromState d sys pre suf).self.enableKrwScaling = c.enableKrwScaling))
    ∧ (EclEpsConfig.construct.initFromState deckConflict
          EclTwoPhaseSystemType.EclOilWaterSystem "" ""
        = { self :=
              { enableSatScaling_ := true
                enableThreePointKrSatScaling_ := false
                enablePcScaling_ := true
                enableLeverettScaling_ := true
                enableKrwScaling_ := false
                enableKrnScaling_ := false
                enableThreePointKrwScaling_ := false
                enableThreePointKrnScaling_ := false },
            threw := true }
      ∧ (EclEpsConfig.construct.initFromState deckConflict
          EclTwoPhaseSystemType.EclOilWaterSystem "" "").self ≠ EclEpsConfig.construct) := by
  refine ⟨?_, by decide, by decide⟩
  intro c d sys pre suf h
  have hWR : pre ++ "KR" ++ "WR" ++ suf = pre ++ "KRWR" ++ suf := hasKR_key pre "WR" suf
  have hORW : pre ++ "KR" ++ "ORW" ++ suf = pre ++ "KRORW" ++ suf := hasKR_key pre "ORW" suf
  have hO : pre ++ "KR" ++ "O" ++ suf = pre ++ "KRO" ++ suf := hasKR_key pre "O" suf
  have hW : pre ++ "KR" ++ "W" ++ suf = pre ++ "KRW" ++ suf := hasKR_key pre "W" suf
  have hORG : pre ++ "KR" ++ "ORG" ++ suf = pre ++ "KRORG" ++ suf := hasKR_key pre "ORG" suf
  have hGR : pre ++ "KR" ++ "GR" ++ suf = pre ++ "KRGR" ++ suf := hasKR_key pre "GR" suf
  have hG : pre ++ "KR" ++ "G" ++ suf = pre ++ "KRG" ++ suf := hasKR_key pre "G" suf
  obtain ⟨e, t, u, f, has⟩ := d
  cases e <;> cases u <;> cases sys <;>
    simp [EclEpsConfig.initFromState, hWR, hORW, hO, hW, hORG, hGR, hG] at h ⊢ <;>
    simp [h]

/-- Witness of C18, amended: the general part at the example, a freshly constructed
object and the oil-water deck `deckConflict`. -/
theorem initFromState_throw_state_witness :
    (EclEpsConfig.construct.initFromState deckConflict
        EclTwoPhaseSystemType.EclOilWaterSystem "" "").threw = true
    ∧ (EclEpsConfig.construct.initFromState deckConflict
        EclTwoPhaseSystemType.EclOilWaterSystem "" "").self.enableSatScaling = true
    ∧ (EclEpsConfig.construct.initFromState deckConflict
        EclTwoPhaseSystemType.EclOilWaterSystem "" "").self.enablePcScaling = true
    ∧ (EclEpsConfig.construct.initFromState deckConflict
        EclTwoPhaseSystemType.EclOilWaterSystem "" "").self.enableLeverettScaling = true :=
  ⟨by decide,
    (initFromState_throw_state.1 EclEpsConfig.construct deckConflict
      EclTwoPhaseSystemType.EclOilWaterSystem "" "" (by decide)).1,
    (initFromState_throw_state.1 EclEpsConfig.construct deckConflict
      EclTwoPhaseSystemType.EclOilWaterSystem "" "" (by decide)).2.1,
    (initFromState_throw_state.1 EclEpsConfig.construct deckConflict
      EclTwoPhaseSystemType.EclOilWaterSystem "" "" (by decide)).2.2.1⟩

/-- C19: when the deck has endpoint scaling and a J-function and the system is
oil-water or gas-oil, `initFromState` assigns every flag: for any two prior states of
the object and the same deck, system type, prefix and suffix, the two calls agree on
whether they throw and on all eight flags they leave. -/
theorem initFromState_overwrites_all (c₁ c₂ : EclEpsConfig) (d : EclipseState)
    (sys : EclTwoPhaseSystemType) (pre suf : String)
    (hend : d.endscale = true) (hj : d.useJFunc = true)
    (hsys : sys = EclTwoPhaseSystemType.EclOilWaterSystem
      ∨ sys = EclTwoPhaseSystemType.EclGasOilSystem) :
    (c₁.initFromState d sys pre suf).threw = (c₂.initFromState d sys pre suf).threw
    ∧ (c₁.initFromState d sys pre suf).self = (c₂.initFromState d sys pre suf).self := by
  obtain ⟨e, t, u, f, has⟩ := d
  simp only at hend hj
  subst hend hj
  rcases hsys with hsys | hsys <;> subst hsys <;>
    simp [EclEpsConfig.initFromState]

/-- Witness of C19: a freshly constructed object and one with every flag set, on the
gas-oil deck `deckJGas` (endpoint scaling, J-function for the gas phase). -/
theorem initFromState_overwrites_all_witness :
    deckJGas.endscale = true ∧ deckJGas.useJFunc = true
    ∧ EclEpsConfig.construct ≠ configAllSet
    ∧ (EclEpsConfig.construct.initFromState deckJGas
          EclTwoPhaseSystemType.EclGasOilSystem "" "").threw
        = (configAllSet.initFromState deckJGas
          EclTwoPhaseSystemType.EclGasOilSystem "" "").threw
    ∧ (EclEpsConfig.construct.initFromState deckJGas
          EclTwoPhaseSystemType.EclGasOilSystem "" "").self
        = (configAllSet.initFromState deckJGas
          EclTwoPhaseSystemType.EclGasOilSystem "" "").self :=
  ⟨rfl, rfl, by decide,
    initFromState_overwrites_all EclEpsConfig.construct configAllSet deckJGas
      EclTwoPhaseSystemType.EclGasOilSystem "" "" rfl rfl (Or.inr rfl)⟩

end Opm
